import Mathlib

/-!
Shallow embedding of the BolsaWeb trading application (src/app.py):
the relational data model (`user`, `tickers`, `posiciones`, `compras`),
the repository layer (`RepositorioDB`), the trade handlers
(`operar_comprar`, `operar_vender`) and the market-data cache
(`ServicioMercado`, `cargar_datos_mercado`), together with theorems
checking the specification claims against these definitions.

Modelling conventions:
* Python floats (prices, balances) are modelled as rationals `ℚ`.
* ISO timestamp strings (which compare lexicographically in
  chronological order) are modelled as naturals; `none` stands for a
  SQL NULL (or, where the code tests truthiness, the empty string).
* A SQLite connection's uncommitted writes are rolled back when the
  connection is closed without `commit()`; a handler that raises
  before `conn.commit()` therefore persists nothing.  Operations are
  modelled as functions from the persisted state to the persisted
  state, with the rollback made explicit in the sell handler.
-/

namespace BolsaWeb

/-- Fixed commission per trade: `COMISION_POR_OPERACION = 10.0` in app.py. -/
def COMISION_POR_OPERACION : ℚ := 10

/-- One row of the `compras` table.  `ventaAutoSup`/`ventaAutoInf` model the
columns `"precio venta automatico sup"` / `"precio venta automatico inf"`. -/
structure Compra where
  id : Nat
  usuario : Nat
  ticker : String
  cantidad : Int
  precioCompra : Option ℚ
  fechaCompra : Option Nat
  precioVenta : Option ℚ
  fechaVenta : Option Nat
  ventaAutoSup : Option ℚ
  ventaAutoInf : Option ℚ
deriving DecidableEq, Repr

/-- A row of the `user` table. -/
structure Usuario where
  id : Nat
  username : String
  saldo : ℚ
deriving DecidableEq, Repr

/-- The relational state touched by the trading operations.  `tickersTbl`
models the `tickers(empresa, ticker)` table, `posiciones` the
`posiciones(symbol UNIQUE, cantidad)` table, and `nextId` the
autoincrementing `compras."ID"` column. -/
structure DBState where
  usuarios : List Usuario
  tickersTbl : List (String × String)
  posiciones : List (String × Int)
  compras : List Compra
  nextId : Nat
deriving DecidableEq, Repr

/-- `RepositorioDB.db_get_saldo`: `SELECT saldo FROM user WHERE id = ?`,
defaulting to `0.0` when there is no row (`float(row[0] or 0.0)`). -/
def db_get_saldo (st : DBState) (usuarioId : Nat) : ℚ :=
  match st.usuarios.find? (fun u => u.id = usuarioId) with
  | some u => u.saldo
  | none => 0

/-- `RepositorioDB.db_set_saldo`: `UPDATE user SET saldo = ? WHERE id = ?`. -/
def db_set_saldo (st : DBState) (usuarioId : Nat) (nuevoSaldo : ℚ) : DBState :=
  { st with usuarios :=
      st.usuarios.map fun u =>
        if u.id = usuarioId then { u with saldo := nuevoSaldo } else u }

/-- `RepositorioDB.leer_tickers`: note that the query is
`SELECT empresa, ticker FROM tickers where ticker='san'` — only the
rows whose ticker is the literal `'san'` are returned. -/
def leer_tickers (st : DBState) : List (String × String) :=
  st.tickersTbl.filter fun r => r.2 = "san"

/-- `portfolio.get(ticker, 0)` over the dict built by
`RepositorioDB.db_get_posiciones` (`SELECT symbol, cantidad FROM posiciones`);
`symbol` is UNIQUE, so first-match lookup agrees with the Python dict. -/
def posicionActual (st : DBState) (tick : String) : Int :=
  match st.posiciones.find? (fun p => p.1 = tick) with
  | some p => p.2
  | none => 0

/-- `RepositorioDB.db_set_posicion`:
`INSERT INTO posiciones(symbol, cantidad) VALUES(?, ?)
 ON CONFLICT(symbol) DO UPDATE SET cantidad=excluded.cantidad`. -/
def db_set_posicion (st : DBState) (tick : String) (cantidad : Int) : DBState :=
  if st.posiciones.any (fun p => p.1 = tick) then
    { st with posiciones :=
        st.posiciones.map fun p => if p.1 = tick then (p.1, cantidad) else p }
  else
    { st with posiciones := st.posiciones ++ [(tick, cantidad)] }

/-- `RepositorioDB.db_insert_compra`: inserts a new open lot with the
current timestamp; the new row gets the next autoincremented ID. -/
def db_insert_compra (st : DBState) (usuarioId : Nat) (tick : String)
    (cantidad : Int) (px : ℚ) (fecha : Nat) : DBState :=
  { st with
    compras := st.compras ++
      [{ id := st.nextId, usuario := usuarioId, ticker := tick,
         cantidad := cantidad, precioCompra := some px,
         fechaCompra := some fecha, precioVenta := none, fechaVenta := none,
         ventaAutoSup := none, ventaAutoInf := none }],
    nextId := st.nextId + 1 }

/-! ### Ordering of open lots (`ORDER BY "fecha compra" {order}, "ID" {order}`)

SQLite sorts NULLs first in ascending order; `rankFecha` therefore maps a
NULL purchase date below every real timestamp. -/

/-- Sort rank of a purchase date (NULL sorts below every timestamp). -/
def rankFecha : Option Nat → Nat
  | none => 0
  | some t => t + 1

/-- Sort key of a `compras` row: purchase date, then ID. -/
def claveCompra (c : Compra) : Nat × Nat :=
  (rankFecha c.fechaCompra, c.id)

/-- Lexicographic order on sort keys. -/
def claveLe (p q : Nat × Nat) : Prop :=
  p.1 < q.1 ∨ (p.1 = q.1 ∧ p.2 ≤ q.2)

instance : DecidableRel claveLe := fun _ _ =>
  inferInstanceAs (Decidable (_ ∨ _))

/-- `ORDER BY "fecha compra" ASC, "ID" ASC` (the FIFO direction). -/
def ordenAsc (a b : Compra) : Prop := claveLe (claveCompra a) (claveCompra b)

/-- `ORDER BY "fecha compra" DESC, "ID" DESC` (the LIFO direction). -/
def ordenDesc (a b : Compra) : Prop := claveLe (claveCompra b) (claveCompra a)

instance : DecidableRel ordenAsc := fun _ _ =>
  inferInstanceAs (Decidable (claveLe _ _))

instance : DecidableRel ordenDesc := fun _ _ =>
  inferInstanceAs (Decidable (claveLe _ _))

instance : IsTotal Compra ordenAsc :=
  ⟨by intro a b; unfold ordenAsc claveLe; omega⟩

instance : IsTrans Compra ordenAsc :=
  ⟨by intro a b c; unfold ordenAsc claveLe; omega⟩

instance : IsTotal Compra ordenDesc :=
  ⟨by intro a b; unfold ordenDesc claveLe; omega⟩

instance : IsTrans Compra ordenDesc :=
  ⟨by intro a b c; unfold ordenDesc claveLe; omega⟩

/-- `metodo.upper()`: ASCII upper-casing, written with structural
recursion (unlike `String.toUpper`) so concrete instances evaluate. -/
def aMayusculas (s : String) : String := ⟨s.data.map Char.toUpper⟩

/-- `s.strip()`: drop leading and trailing whitespace, written with
structural recursion (unlike `String.trim`) so concrete instances
evaluate. -/
def recortar (s : String) : String :=
  ⟨((s.data.dropWhile Char.isWhitespace).reverse.dropWhile
      Char.isWhitespace).reverse⟩

/-- The `WHERE` clause of the open-lot query:
`usuario = ? AND ticker = ? AND "fecha venta" IS NULL`. -/
def esAbierta (usuarioId : Nat) (tick : String) (c : Compra) : Prop :=
  c.usuario = usuarioId ∧ c.ticker = tick ∧ c.fechaVenta = none

instance (usuarioId : Nat) (tick : String) :
    DecidablePred (esAbierta usuarioId tick) := fun _ =>
  inferInstanceAs (Decidable (_ ∧ _ ∧ _))

/-- The open lots of a (user, ticker) pair, in table order. -/
def comprasAbiertas (compras : List Compra) (usuarioId : Nat) (tick : String) :
    List Compra :=
  compras.filter fun c => decide (esAbierta usuarioId tick c)

/-- The open lots of a (user, ticker) pair in the order produced by the
query of `db_cerrar_compras`: `ORDER BY "fecha compra" {order}, "ID" {order}`
with `order = "DESC" if metodo.upper() == "LIFO" else "ASC"`. -/
def abiertasOrdenadas (compras : List Compra) (usuarioId : Nat) (tick : String)
    (metodo : String) : List Compra :=
  if aMayusculas metodo = "LIFO" then
    List.insertionSort ordenDesc (comprasAbiertas compras usuarioId tick)
  else
    List.insertionSort ordenAsc (comprasAbiertas compras usuarioId tick)

/-- Closing a lot row in place: `UPDATE compras SET "precio venta" = ?,
"fecha venta" = ?, "precio venta automatico sup" = NULL,
"precio venta automatico inf" = NULL WHERE "ID" = ?`. -/
def cerrarFila (pv : ℚ) (fv : Nat) (c : Compra) : Compra :=
  { c with precioVenta := some pv, fechaVenta := some fv,
           ventaAutoSup := none, ventaAutoInf := none }

/-- The row inserted by the split branch of `db_cerrar_compras`: the sold
portion of a partially consumed lot, already closed.  The unspecified
auto-sell columns default to NULL. -/
def filaDividida (nid : Nat) (usuarioId : Nat) (tick : String)
    (vendidas : Int) (origen : Compra) (pv : ℚ) (fv : Nat) : Compra :=
  { id := nid, usuario := usuarioId, ticker := tick, cantidad := vendidas,
    precioCompra := origen.precioCompra, fechaCompra := origen.fechaCompra,
    precioVenta := some pv, fechaVenta := some fv,
    ventaAutoSup := none, ventaAutoInf := none }

/-- The `for row in abiertas` loop of `db_cerrar_compras`, threading the
table, the autoincrement counter and `restante`.  A lot is consumed fully
when `qty <= restante`; otherwise it is split (`quedan = qty - vendidas`)
and the loop stops (`restante = 0`). -/
def cerrarLoop (usuarioId : Nat) (tick : String) (pv : ℚ) (fv : Nat) :
    List Compra → Nat → Int → List Compra → List Compra × Nat × Int
  | table, nid, restante, [] => (table, nid, restante)
  | table, nid, restante, row :: rest =>
    if restante ≤ 0 then (table, nid, restante)
    else if row.cantidad ≤ restante then
      cerrarLoop usuarioId tick pv fv
        (table.map fun c => if c.id = row.id then cerrarFila pv fv c else c)
        nid (restante - row.cantidad) rest
    else
      ((table.map fun c =>
          if c.id = row.id then { c with cantidad := row.cantidad - restante }
          else c)
        ++ [filaDividida nid usuarioId tick restante row pv fv],
       nid + 1, 0)

/-- The quantity-shortfall message raised by `db_cerrar_compras`. -/
def mensajeFaltan (cantidadVender restante : Int) : String :=
  "No hay suficientes compras abiertas para vender " ++
    toString cantidadVender ++ ". Faltan " ++ toString restante ++ "."

/-- `RepositorioDB.db_cerrar_compras`.  Returns `.error` for the
`ValueError` raised when `restante > 0` after the loop; since the caller
commits only on success and closes the connection in a `finally`, an
error means none of the loop's writes are persisted, which the caller
models by keeping its pre-call state. -/
def db_cerrar_compras (st : DBState) (usuarioId : Nat) (tick : String)
    (cantidadVender : Int) (pv : ℚ) (fv : Nat) (metodo : String) :
    Except String DBState :=
  if cantidadVender ≤ 0 then .ok st
  else
    let abiertas := abiertasOrdenadas st.compras usuarioId tick metodo
    let res := cerrarLoop usuarioId tick pv fv st.compras st.nextId
      cantidadVender abiertas
    if 0 < res.2.2 then .error (mensajeFaltan cantidadVender res.2.2)
    else .ok { st with compras := res.1, nextId := res.2.1 }

/-! ### Average cost basis (`RepositorioDB.db_coste_medio_posicion`) -/

/-- Kind of a replayed movement. -/
inductive TipoMov
  | buy
  | sell
deriving DecidableEq, Repr

/-- One entry of the `movimientos` list: `(tipo, fecha, cantidad, precio)`. -/
structure Movimiento where
  tipo : TipoMov
  fecha : Nat
  qty : Int
  px : ℚ
deriving DecidableEq, Repr

/-- Classification of one `compras` row, translating
`if p_compra is not None and f_compra: BUY elif p_venta is not None and
f_venta: SELL else: nothing`.  Note the `elif`: a row with buy data is a
BUY even when it also carries sell data. -/
def movimientoDeFila (r : Compra) : Option Movimiento :=
  match r.precioCompra, r.fechaCompra with
  | some pc, some fc => some ⟨.buy, fc, r.cantidad, pc⟩
  | _, _ =>
    match r.precioVenta, r.fechaVenta with
    | some pv, some fv => some ⟨.sell, fv, r.cantidad, pv⟩
    | _, _ => none

/-- The `movimientos` list: every row of the (user, ticker) pair
(`SELECT ... FROM compras WHERE usuario = ? AND ticker = ?`), classified,
in table order. -/
def movimientosDe (compras : List Compra) (usuarioId : Nat) (tick : String) :
    List Movimiento :=
  (compras.filter fun r =>
      decide (r.usuario = usuarioId ∧ r.ticker = tick)).filterMap
    movimientoDeFila

/-- `movimientos.sort(key=lambda x: x[1])`: Python's `list.sort` is stable,
and insertion sort with the non-strict order on dates computes the same
stable ascending reordering. -/
def movimientosOrdenados (compras : List Compra) (usuarioId : Nat)
    (tick : String) : List Movimiento :=
  List.insertionSort (fun a b => a.fecha ≤ b.fecha)
    (movimientosDe compras usuarioId tick)

/-- One iteration of the replay loop of `db_coste_medio_posicion` over the
running pair `(shares, avg_cost)`. -/
def pasoCoste (acc : Int × ℚ) (m : Movimiento) : Int × ℚ :=
  match m.tipo with
  | .buy =>
    let total : ℚ :=
      acc.2 * (acc.1 : ℚ) + m.px * (m.qty : ℚ) + COMISION_POR_OPERACION
    let shares := acc.1 + m.qty
    (shares, if 0 < shares then total / (shares : ℚ) else 0)
  | .sell =>
    let shares := acc.1 - m.qty
    if shares ≤ 0 then (0, 0) else (shares, acc.2)

/-- `RepositorioDB.db_coste_medio_posicion`: replay the sorted movements
from `(0, 0.0)` and return the final `avg_cost`.  The function only reads
the table. -/
def db_coste_medio_posicion (compras : List Compra) (usuarioId : Nat)
    (tick : String) : ℚ :=
  ((movimientosOrdenados compras usuarioId tick).foldl pasoCoste (0, 0)).2

/-! ### Real-time price (`ServicioMercado.obtener_precio_tiempo_real`)

The result of `yf.Ticker(ticker + ".MC").history(period="1d",
interval="1m")` is modelled as `Option HistDF`: `none` when the call
raises, otherwise the returned frame with its column-presence flags. -/

/-- One row of a fetched price history frame. -/
structure HistRow where
  fecha : Nat
  close : ℚ
  high : ℚ
  openPx : ℚ
  low : ℚ
deriving DecidableEq, Repr

/-- A fetched price history frame together with which of the price
columns are present. -/
structure HistDF where
  rows : List HistRow
  hasClose : Bool
  hasHigh : Bool
  hasOpen : Bool
  hasLow : Bool
deriving DecidableEq, Repr

/-- `ServicioMercado.obtener_precio_tiempo_real`: `None` on exception or
empty frame; otherwise the last row (after `sort_index()`) of the first
present column among Close, High, Open, Low.  This function takes only
the live fetch result — it never reads the cached snapshot. -/
def obtener_precio_tiempo_real (fetch : Option HistDF) : Option ℚ :=
  match fetch with
  | none => none
  | some df =>
    if df.rows = [] then none
    else
      match (List.insertionSort (fun a b => a.fecha ≤ b.fecha)
          df.rows).getLast? with
      | none => none
      | some fila =>
        if df.hasClose then some fila.close
        else if df.hasHigh then some fila.high
        else if df.hasOpen then some fila.openPx
        else if df.hasLow then some fila.low
        else none

/-- `_obtener_precio_operacion`: `None` for a blank ticker, otherwise the
real-time price of the (already stripped and upper-cased) form ticker. -/
def obtenerPrecioOperacion (tick : String) (fetch : Option HistDF) :
    Option ℚ :=
  if tick = "" then none else obtener_precio_tiempo_real fetch

/-! ### Trade handlers (`POST /operar/comprar`, `POST /operar/vender`)

The quantity form field is modelled after `int(cantidad_txt)`: `none`
when parsing raises (the `except` branch), `some n` otherwise. -/

/-- Outcome of a trade handler (which flash message the user gets). -/
inductive Resultado
  | ok
  | cantidadInvalida
  | sinPrecio
  | saldoInsuficiente
  | accionesInsuficientes
  | ingresoNegativo
  | faltanCompras (msg : String)
deriving DecidableEq, Repr

/-- The `operar_comprar` handler after login: parse the quantity
(`cantidad = max(1, int(cantidad_txt))`), fetch the live price, check
funds, then debit the balance, upsert the position and insert the lot.
Every rejection path returns before any write. -/
def operar_comprar (st : DBState) (uid : Nat) (tick : String)
    (cantidadTxt : Option Int) (fetch : Option HistDF) (fecha : Nat) :
    DBState × Resultado :=
  match cantidadTxt with
  | none => (st, .cantidadInvalida)
  | some n =>
    let cantidad : Int := max 1 n
    match obtenerPrecioOperacion tick fetch with
    | none => (st, .sinPrecio)
    | some px =>
      let cash := db_get_saldo st uid
      let coste := px * (cantidad : ℚ) + COMISION_POR_OPERACION
      if cash < coste then (st, .saldoInsuficiente)
      else
        let accionesActuales := posicionActual st tick
        let st1 := db_set_saldo st uid (cash - coste)
        let st2 := db_set_posicion st1 tick (accionesActuales + cantidad)
        let st3 := db_insert_compra st2 uid tick cantidad px fecha
        (st3, .ok)

/-- The `operar_vender` handler after login: parse the quantity, fetch
the live price, check the recorded position and the net credit, then
credit the balance, update the position and close lots
(`db_cerrar_compras`, default method `"LIFO"`).  When `db_cerrar_compras`
raises, `conn.commit()` is never reached and `conn.close()` rolls the
uncommitted writes back, so the persisted state is the pre-call state. -/
def operar_vender (st : DBState) (uid : Nat) (tick : String)
    (cantidadTxt : Option Int) (fetch : Option HistDF) (fecha : Nat) :
    DBState × Resultado :=
  match cantidadTxt with
  | none => (st, .cantidadInvalida)
  | some n =>
    let cantidad : Int := max 1 n
    match obtenerPrecioOperacion tick fetch with
    | none => (st, .sinPrecio)
    | some px =>
      let accionesActuales := posicionActual st tick
      if accionesActuales < cantidad then (st, .accionesInsuficientes)
      else
        let cash := db_get_saldo st uid
        let ingreso := px * (cantidad : ℚ) - COMISION_POR_OPERACION
        if ingreso < 0 then (st, .ingresoNegativo)
        else
          let st1 := db_set_saldo st uid (cash + ingreso)
          let st2 := db_set_posicion st1 tick (accionesActuales - cantidad)
          match db_cerrar_compras st2 uid tick cantidad px fecha "LIFO" with
          | .error m => (st, .faltanCompras m)
          | .ok st3 => (st3, .ok)

/-! ### Market data cache (`ServicioMercado` and `cargar_datos_mercado`)

A price bar (one record of the JSON snapshot) is modelled with its
timestamp and OHLC values; a ticker's data is a mapping period label →
list of bars, and a snapshot maps ticker → that.  JSON (de)serialization
preserves key order and these values, so the on-disk document is
modelled by the same type. -/

/-- One OHLC price bar of the snapshot. -/
structure Bar where
  fecha : Nat
  openPx : ℚ
  high : ℚ
  low : ℚ
  close : ℚ
deriving DecidableEq, Repr

/-- Market data for one ticker: period label → bars (a `DataFrame`
modelled as its record list; `[]` is an empty frame). -/
abbrev DatosPorPeriodo := List (String × List Bar)

/-- A snapshot: ticker → period label → bars. -/
abbrev Snapshot := List (String × DatosPorPeriodo)

/-- `INTERVALO_PERIODO`: `(clave, yf_period, intervalo)` rows. -/
def INTERVALO_PERIODO : List (String × String × String) :=
  [("D", "1d", "1m"), ("2M", "2mo", "5m"), ("2A", "2y", "1h"),
   ("MAX", "max", "1d")]

/-- `MARKET_REFRESH_TTL_SECONDS` (default 900). -/
def MARKET_REFRESH_TTL_SECONDS : ℚ := 900

/-- The process state of the market cache: the on-disk snapshot file
(`resultados.json`; `none` when the file does not exist), the last
refresh timestamp file (`market_refresh.json`), and the process-wide
`TODOS_LOS_DATOS` in-memory cache (`none` models its initial `[]`
value, `some d` the deserialized dict, possibly empty). -/
structure MarketState where
  disco : Option Snapshot
  lastRefresh : Option ℚ
  memCache : Option Snapshot
deriving DecidableEq, Repr

/-- `ServicioMercado._extraer_tickers` on the `(empresa, ticker)` tuples
read from the database: take the second component, strip it, and drop
duplicates and blanks while preserving order. -/
def extraerTickers (tickersDB : List (String × String)) : List String :=
  go (tickersDB.map fun p => recortar p.2) []
where
  /-- The dedup loop with its `seen` set (kept as a list). -/
  go : List String → List String → List String
    | [], _ => []
    | t :: rest, seen =>
      if t ≠ "" ∧ t ∉ seen then t :: go rest (t :: seen)
      else go rest seen

/-- `ServicioMercado.descargar_datos_tickers`.  The provider (yfinance)
is a parameter mapping `(symbol, yf_period, interval)` to `none` when
`history` raises and `some rows` otherwise; empty or failed fetches are
skipped, but the ticker keeps its (possibly empty) period dict:
`resultados[tick] = {}` is assigned before the period loop. -/
def descargar_datos_tickers (tickersDB : List (String × String))
    (provider : String → String → String → Option (List Bar)) : Snapshot :=
  (extraerTickers tickersDB).map fun tick =>
    (tick,
      INTERVALO_PERIODO.filterMap fun per =>
        match provider (tick ++ ".MC") per.2.1 per.2.2 with
        | none => none
        | some [] => none
        | some df =>
          some (per.1, List.insertionSort (fun a b => a.fecha ≤ b.fecha) df))

/-- `ServicioMercado.guardar_datos_en_disco`: the JSON document written
to `resultados.json` — tickers with an empty period dict are dropped,
and empty frames are dropped inside each ticker. -/
def guardar_datos_en_disco (resultados : Snapshot) : Snapshot :=
  resultados.filterMap fun td =>
    if td.2 = [] then none
    else some (td.1, td.2.filter fun pd => ¬ pd.2 = [])

/-- `ServicioMercado.cargar_datos_desde_disco`: populate the
process-wide `TODOS_LOS_DATOS` from `resultados.json` on first use
(`leer_json` yields `{}` when the file is missing; rebuilding each
record list into a frame preserves the bars), then always serve the
in-memory value.  Returns the updated process state and the served
snapshot. -/
def cargar_datos_desde_disco (ms : MarketState) : MarketState × Snapshot :=
  match ms.memCache with
  | some datos => (ms, datos)
  | none =>
    let datos := ms.disco.getD []
    ({ ms with memCache := some datos }, datos)

/-- `_ha_expirado_market_cache`: `True` when no refresh timestamp is
recorded (`float(... or 0.0) or None` turns a stored `0` into `None`)
or when `now - ts > ttl`. -/
def ha_expirado_market_cache (ms : MarketState) (now : ℚ) : Bool :=
  match ms.lastRefresh with
  | none => true
  | some ts => if ts = 0 then true else decide (now - ts > MARKET_REFRESH_TTL_SECONDS)

/-- `cargar_datos_mercado`: serve the cache when the snapshot file
exists, is fresh and deserializes to something non-empty; otherwise
load the fallback, attempt a full refresh (persisting the result and
stamping the refresh time when the returned dict is non-empty — note
that a dict of empty period dicts is non-empty), and fail open to the
fallback or `{}`.  Returns the new process state, the served snapshot
and whether `descargar_datos_tickers` was invoked. -/
def cargar_datos_mercado (db : DBState) (ms : MarketState) (now : ℚ)
    (provider : String → String → String → Option (List Bar)) :
    MarketState × Snapshot × Bool :=
  let tickersDB := leer_tickers db
  let paso1 : MarketState × Option Snapshot :=
    if ms.disco.isSome ∧ ha_expirado_market_cache ms now = false then
      match cargar_datos_desde_disco ms with
      | (ms1, datos) => (ms1, if datos = [] then none else some datos)
    else (ms, none)
  match paso1 with
  | (ms1, some datos) => (ms1, datos, false)
  | (ms1, none) =>
    let paso2 : MarketState × Snapshot :=
      if ms1.disco.isSome then cargar_datos_desde_disco ms1 else (ms1, [])
    match paso2 with
    | (ms2, fallback) =>
      let datosNuevos := descargar_datos_tickers tickersDB provider
      if datosNuevos = [] then
        if fallback = [] then (ms2, [], true) else (ms2, fallback, true)
      else
        ({ ms2 with disco := some (guardar_datos_en_disco datosNuevos),
                    lastRefresh := some now },
         datosNuevos, true)

/-! ### Spec-side description of the lot-matching walk

These definitions restate the lot-matching algorithm the way the
specification words it — compute the matching plan first, then apply it
— to be compared with `db_cerrar_compras`, which interleaves the row
updates with the walk. -/

/-- The matching plan described by the spec: walk the ordered open lots,
fully consuming a lot when its quantity is at most the remaining amount
to sell, otherwise splitting it (sold portion, remainder) and stopping.
Returns the IDs of the fully consumed lots, the optional split
`(source row, sold, remainder)` and the unmatched remainder. -/
def planCierre : List Compra → Int → List Nat × Option (Compra × Int × Int) × Int
  | [], restante => ([], none, restante)
  | row :: rest, restante =>
    if restante ≤ 0 then ([], none, restante)
    else if row.cantidad ≤ restante then
      match planCierre rest (restante - row.cantidad) with
      | (ids, corte, queda) => (row.id :: ids, corte, queda)
    else ([], some (row, restante, row.cantidad - restante), 0)

/-- Stamp sell price and sell time on every row whose ID the plan marks
as fully consumed. -/
def cierraEnIds (ids : List Nat) (pv : ℚ) (fv : Nat)
    (table : List Compra) : List Compra :=
  table.map fun c => if c.id ∈ ids then cerrarFila pv fv c else c

/-- Apply a matching plan to the table: stamp the fully consumed lots;
for a split, reduce the original row to the unsold remainder (leaving
all its other columns, in particular its open sell date, unchanged) and
append a new closed row recording exactly the sold portion. -/
def aplicarPlanTabla (usuarioId : Nat) (tick : String) (pv : ℚ) (fv : Nat)
    (table : List Compra) (nid : Nat)
    (plan : List Nat × Option (Compra × Int × Int) × Int) :
    List Compra × Nat :=
  let t1 := cierraEnIds plan.1 pv fv table
  match plan.2.1 with
  | none => (t1, nid)
  | some (row, vendidas, quedan) =>
    (t1.map (fun c => if c.id = row.id then { c with cantidad := quedan } else c)
       ++ [filaDividida nid usuarioId tick vendidas row pv fv],
     nid + 1)

/-- Apply a matching plan to the whole database state. -/
def aplicarPlan (st : DBState) (usuarioId : Nat) (tick : String) (pv : ℚ)
    (fv : Nat) (plan : List Nat × Option (Compra × Int × Int) × Int) :
    DBState :=
  { st with
    compras := (aplicarPlanTabla usuarioId tick pv fv st.compras
      st.nextId plan).1,
    nextId := (aplicarPlanTabla usuarioId tick pv fv st.compras
      st.nextId plan).2 }

/-! ### The average-cost fold exactly as claim C2 words it -/

/-- The events as the claim reads them: every buy event AND every sell
event of the pair — a row contributes a buy whenever its buy fields are
set and, independently, a sell whenever its sell fields are set. -/
def movimientosClaim (compras : List Compra) (usuarioId : Nat)
    (tick : String) : List Movimiento :=
  (compras.filter fun r =>
      decide (r.usuario = usuarioId ∧ r.ticker = tick)).flatMap fun r =>
    (match r.precioCompra, r.fechaCompra with
     | some pc, some fc => [⟨.buy, fc, r.cantidad, pc⟩]
     | _, _ => []) ++
    (match r.precioVenta, r.fechaVenta with
     | some pv, some fv => [⟨.sell, fv, r.cantidad, pv⟩]
     | _, _ => [])

/-- One step of the fold exactly as the claim words it: each buy sets
`avgCost = (avgCost*shares + price*qty + commission) / (shares+qty)` and
`shares += qty`; each sell sets `shares -= qty` and resets `avgCost` to
`0` whenever `shares ≤ 0` (the claim does not clamp `shares` at zero). -/
def pasoClaim (acc : Int × ℚ) (m : Movimiento) : Int × ℚ :=
  match m.tipo with
  | .buy =>
    let shares := acc.1 + m.qty
    (shares,
      (acc.2 * (acc.1 : ℚ) + m.px * (m.qty : ℚ) + COMISION_POR_OPERACION) /
        (shares : ℚ))
  | .sell =>
    let shares := acc.1 - m.qty
    (shares, if shares ≤ 0 then 0 else acc.2)

/-- The average cost computed by the fold of claim C2, replaying the
events in chronological order with ties broken by insertion order. -/
def costeMedioClaim (compras : List Compra) (usuarioId : Nat)
    (tick : String) : ℚ :=
  ((List.insertionSort (fun a b => a.fecha ≤ b.fecha)
      (movimientosClaim compras usuarioId tick)).foldl pasoClaim (0, 0)).2

/-! ### The average-cost fold of the amended claim C2 -/

/-- Row classification per the amended claim: one movement per row — a
buy (at the buy date) when the row's buy price and buy date are present,
even if the row is closed; otherwise a sell (at the sell date) when its
sell price and sell date are present; otherwise nothing. -/
def clasificaFila (r : Compra) : Option Movimiento :=
  match r.precioCompra, r.fechaCompra, r.precioVenta, r.fechaVenta with
  | some pc, some fc, _, _ => some ⟨.buy, fc, r.cantidad, pc⟩
  | none, _, some pv, some fv => some ⟨.sell, fv, r.cantidad, pv⟩
  | _, none, some pv, some fv => some ⟨.sell, fv, r.cantidad, pv⟩
  | _, _, _, _ => none

/-- The replay of the amended claim, as an explicit recursion on the
sorted movements: each buy folds the commission into the weighted
average (guarded when the resulting share count is not positive); each
sell decrements the share count and, whenever it drops to zero or
below, clamps it to zero and resets the average to zero. -/
def replayAmended : Int → ℚ → List Movimiento → ℚ
  | _, avg, [] => avg
  | shares, avg, m :: ms =>
    match m.tipo with
    | .buy =>
      let total : ℚ :=
        avg * (shares : ℚ) + m.px * (m.qty : ℚ) + COMISION_POR_OPERACION
      let sh := shares + m.qty
      replayAmended sh (if 0 < sh then total / (sh : ℚ) else 0) ms
    | .sell =>
      let sh := shares - m.qty
      if sh ≤ 0 then replayAmended 0 0 ms else replayAmended sh avg ms

/-- The average cost as the amended claim describes it. -/
def costeMedioAmended (compras : List Compra) (usuarioId : Nat)
    (tick : String) : ℚ :=
  replayAmended 0 0
    (List.insertionSort (fun a b => a.fecha ≤ b.fecha)
      ((compras.filter fun r =>
          decide (r.usuario = usuarioId ∧ r.ticker = tick)).filterMap
        clasificaFila))

/-! ### Helper lemmas -/

/-- Closing a row does not change its ID. -/
lemma cerrarFila_id (pv : ℚ) (fv : Nat) (c : Compra) :
    (cerrarFila pv fv c).id = c.id := rfl

/-- Closing a row twice with the same stamp is the same as closing it once. -/
lemma cerrarFila_idem (pv : ℚ) (fv : Nat) (c : Compra) :
    cerrarFila pv fv (cerrarFila pv fv c) = cerrarFila pv fv c := rfl

/-- Closing an empty set of IDs leaves the table unchanged. -/
lemma cierraEnIds_nil (pv : ℚ) (fv : Nat) (table : List Compra) :
    cierraEnIds [] pv fv table = table := by
  simp [cierraEnIds]

/-- Closing the IDs `a :: ids` is closing `a` first and then `ids`. -/
lemma cierraEnIds_cons (a : Nat) (ids : List Nat) (pv : ℚ) (fv : Nat)
    (table : List Compra) :
    cierraEnIds (a :: ids) pv fv table =
      cierraEnIds ids pv fv
        (table.map fun c => if c.id = a then cerrarFila pv fv c else c) := by
  unfold cierraEnIds
  rw [List.map_map]
  refine List.map_congr_left ?_
  intro c _
  by_cases h1 : c.id = a
  · by_cases h2 : c.id ∈ ids <;>
      simp [Function.comp, h1, h2, cerrarFila]
  · by_cases h2 : c.id ∈ ids <;>
      simp [Function.comp, h1, h2]

/-- The interleaved loop of `db_cerrar_compras` computes exactly the
spec-side plan applied in one go, and leaves the same remainder. -/
lemma cerrarLoop_eq_planCierre (usuarioId : Nat) (tick : String) (pv : ℚ)
    (fv : Nat) :
    ∀ (lots table : List Compra) (nid : Nat) (restante : Int),
      cerrarLoop usuarioId tick pv fv table nid restante lots =
        ((aplicarPlanTabla usuarioId tick pv fv table nid
            (planCierre lots restante)).1,
         (aplicarPlanTabla usuarioId tick pv fv table nid
            (planCierre lots restante)).2,
         (planCierre lots restante).2.2) := by
  intro lots
  induction lots with
  | nil =>
    intro table nid restante
    simp [cerrarLoop, planCierre, aplicarPlanTabla, cierraEnIds_nil]
  | cons row rest ih =>
    intro table nid restante
    by_cases hr : restante ≤ 0
    · simp [cerrarLoop, planCierre, hr, aplicarPlanTabla, cierraEnIds_nil]
    · by_cases hq : row.cantidad ≤ restante
      · rw [cerrarLoop, if_neg hr, if_pos hq, ih]
        cases hplan : planCierre rest (restante - row.cantidad) with
        | mk ids resto =>
          cases resto with
          | mk corte queda =>
            cases corte with
            | none =>
              simp [planCierre, hr, hq, hplan, aplicarPlanTabla,
                cierraEnIds_cons]
            | some datos =>
              simp [planCierre, hr, hq, hplan, aplicarPlanTabla,
                cierraEnIds_cons]
      · simp [cerrarLoop, planCierre, hr, hq, aplicarPlanTabla,
          cierraEnIds_nil]

/-- The walked list is a permutation of the open lots of the pair. -/
lemma abiertasOrdenadas_perm (compras : List Compra) (usuarioId : Nat)
    (tick : String) (metodo : String) :
    (abiertasOrdenadas compras usuarioId tick metodo).Perm
      (comprasAbiertas compras usuarioId tick) := by
  unfold abiertasOrdenadas
  split
  · exact List.perm_insertionSort _ _
  · exact List.perm_insertionSort _ _

/-- Under the default LIFO method the walked lots are ordered by purchase
time, most recent first (a NULL date ranking below every timestamp). -/
lemma abiertasOrdenadas_lifo_sorted (compras : List Compra) (usuarioId : Nat)
    (tick : String) :
    List.Sorted (fun a b : Compra =>
        rankFecha b.fechaCompra ≤ rankFecha a.fechaCompra)
      (abiertasOrdenadas compras usuarioId tick "LIFO") := by
  have h := List.sorted_insertionSort ordenDesc
    (comprasAbiertas compras usuarioId tick)
  have heq : abiertasOrdenadas compras usuarioId tick "LIFO" =
      List.insertionSort ordenDesc (comprasAbiertas compras usuarioId tick) := by
    unfold abiertasOrdenadas
    rw [if_pos (by decide)]
  rw [heq]
  refine h.imp ?_
  intro a b hab
  have hk : (claveCompra b).1 ≤ (claveCompra a).1 := by
    rcases hab with h1 | h2
    · exact le_of_lt h1
    · exact le_of_eq h2.1
  simpa [claveCompra] using hk

/-- Under FIFO the walked lots are ordered by purchase time, oldest
first. -/
lemma abiertasOrdenadas_fifo_sorted (compras : List Compra) (usuarioId : Nat)
    (tick : String) :
    List.Sorted (fun a b : Compra =>
        rankFecha a.fechaCompra ≤ rankFecha b.fechaCompra)
      (abiertasOrdenadas compras usuarioId tick "FIFO") := by
  have h := List.sorted_insertionSort ordenAsc
    (comprasAbiertas compras usuarioId tick)
  have heq : abiertasOrdenadas compras usuarioId tick "FIFO" =
      List.insertionSort ordenAsc (comprasAbiertas compras usuarioId tick) := by
    unfold abiertasOrdenadas
    rw [if_neg (by decide)]
  rw [heq]
  refine h.imp ?_
  intro a b hab
  have hk : (claveCompra a).1 ≤ (claveCompra b).1 := by
    rcases hab with h1 | h2
    · exact le_of_lt h1
    · exact le_of_eq h2.1
  simpa [claveCompra] using hk

/-- Total quantity of the open lots of a (user, ticker) pair. -/
def sumaAbiertas (compras : List Compra) (usuarioId : Nat) (tick : String) :
    Int :=
  ((comprasAbiertas compras usuarioId tick).map fun c => c.cantidad).sum

/-- When the lots cannot cover the requested quantity, the plan's
remainder is exactly the shortfall (the split branch is unreachable). -/
lemma planCierre_restante (lots : List Compra) :
    ∀ restante : Int, (∀ c ∈ lots, 0 ≤ c.cantidad) →
      (lots.map fun c => c.cantidad).sum < restante →
      (planCierre lots restante).2.2 =
        restante - (lots.map fun c => c.cantidad).sum := by
  induction lots with
  | nil => intro r _ _; simp [planCierre]
  | cons row rest ih =>
    intro r hpos hsum
    have hrest0 : 0 ≤ (rest.map fun c => c.cantidad).sum :=
      List.sum_nonneg (by
        intro x hx
        rcases List.mem_map.mp hx with ⟨c, hc, hcx⟩
        exact hcx ▸ hpos c (List.mem_cons_of_mem _ hc))
    have hrow0 : 0 ≤ row.cantidad := hpos row (List.mem_cons_self _ _)
    have hsum' : row.cantidad + (rest.map fun c => c.cantidad).sum < r := by
      simpa using hsum
    have hr : ¬ r ≤ 0 := by omega
    have hq : row.cantidad ≤ r := by omega
    rw [planCierre, if_neg hr, if_pos hq]
    have hih := ih (r - row.cantidad)
      (fun c hc => hpos c (List.mem_cons_of_mem _ hc)) (by omega)
    simp only [List.map_cons, List.sum_cons]
    cases hplan : planCierre rest (r - row.cantidad) with
    | mk ids resto =>
      rw [hplan] at hih
      dsimp only at hih ⊢
      omega

/-- `db_cerrar_compras` reports the quantity shortfall whenever the open
lots (all of nonnegative quantity) cannot cover the requested amount. -/
lemma db_cerrar_compras_error_of_faltan (st : DBState) (usuarioId : Nat)
    (tick : String) (q : Int) (pv : ℚ) (fv : Nat) (metodo : String)
    (hpos : ∀ c ∈ comprasAbiertas st.compras usuarioId tick, 0 ≤ c.cantidad)
    (hsum : sumaAbiertas st.compras usuarioId tick < q) :
    ∃ m, db_cerrar_compras st usuarioId tick q pv fv metodo =
      Except.error m := by
  have hsum0 : 0 ≤ sumaAbiertas st.compras usuarioId tick :=
    List.sum_nonneg (by
      intro x hx
      rcases List.mem_map.mp hx with ⟨c, hc, hcx⟩
      exact hcx ▸ hpos c hc)
  have hq : ¬ q ≤ 0 := by
    unfold sumaAbiertas at hsum hsum0
    omega
  have hperm := abiertasOrdenadas_perm st.compras usuarioId tick metodo
  have hsum2 :
      ((abiertasOrdenadas st.compras usuarioId tick metodo).map
        fun c => c.cantidad).sum < q := by
    rw [(hperm.map fun c => c.cantidad).sum_eq]
    exact hsum
  have hpos2 : ∀ c ∈ abiertasOrdenadas st.compras usuarioId tick metodo,
      0 ≤ c.cantidad := fun c hc => hpos c (hperm.mem_iff.mp hc)
  have hrest := planCierre_restante
    (abiertasOrdenadas st.compras usuarioId tick metodo) q hpos2 hsum2
  unfold db_cerrar_compras
  rw [if_neg hq]
  simp only [cerrarLoop_eq_planCierre, hrest]
  split
  next => exact ⟨_, rfl⟩
  next h => exact absurd (by omega) h

/-- `db_set_saldo` touches only the `user` table. -/
lemma db_set_saldo_campos (st : DBState) (usuarioId : Nat) (v : ℚ) :
    (db_set_saldo st usuarioId v).compras = st.compras ∧
    (db_set_saldo st usuarioId v).nextId = st.nextId ∧
    (db_set_saldo st usuarioId v).posiciones = st.posiciones := by
  unfold db_set_saldo
  exact ⟨rfl, rfl, rfl⟩

/-- `db_set_posicion` touches only the `posiciones` table. -/
lemma db_set_posicion_campos (st : DBState) (tick : String) (cant : Int) :
    (db_set_posicion st tick cant).compras = st.compras ∧
    (db_set_posicion st tick cant).nextId = st.nextId ∧
    (db_set_posicion st tick cant).usuarios = st.usuarios := by
  unfold db_set_posicion
  split
  · exact ⟨rfl, rfl, rfl⟩
  · exact ⟨rfl, rfl, rfl⟩

/-- `db_insert_compra` touches only the `compras` table and its counter. -/
lemma db_insert_compra_campos (st : DBState) (usuarioId : Nat) (tick : String)
    (cant : Int) (px : ℚ) (fecha : Nat) :
    (db_insert_compra st usuarioId tick cant px fecha).usuarios =
      st.usuarios ∧
    (db_insert_compra st usuarioId tick cant px fecha).posiciones =
      st.posiciones := by
  unfold db_insert_compra
  exact ⟨rfl, rfl⟩

/-- When `db_cerrar_compras` succeeds it touches only the `compras`
table and its counter. -/
lemma db_cerrar_compras_ok_campos (st st' : DBState) (usuarioId : Nat)
    (tick : String) (q : Int) (pv : ℚ) (fv : Nat) (metodo : String)
    (h : db_cerrar_compras st usuarioId tick q pv fv metodo =
      Except.ok st') :
    st'.usuarios = st.usuarios ∧ st'.posiciones = st.posiciones := by
  unfold db_cerrar_compras at h
  dsimp only at h
  split at h
  · cases h
    exact ⟨rfl, rfl⟩
  · split at h
    · cases h
    · cases h
      exact ⟨rfl, rfl⟩

/-- Updating a user's balance in the row list and reading it back with
first-match lookup yields the written value, provided the row exists. -/
lemma find_saldo_aux :
    ∀ (l : List Usuario) (uid : Nat) (v : ℚ), (∃ u ∈ l, u.id = uid) →
      (match (l.map fun u =>
          if u.id = uid then { u with saldo := v } else u).find?
          (fun u => u.id = uid) with
       | some u => u.saldo
       | none => 0) = v := by
  intro l
  induction l with
  | nil => intro uid v h; simp at h
  | cons w rest ih =>
    intro uid v h
    by_cases hw : w.id = uid
    · simp [List.find?, hw]
    · have hl : ∃ u ∈ rest, u.id = uid := by
        obtain ⟨u, hu, hid⟩ := h
        rcases List.mem_cons.mp hu with hwu | hrest
        · exact absurd (hwu ▸ hid) hw
        · exact ⟨u, hrest, hid⟩
      simpa [List.find?, hw] using ih uid v hl

/-- Reading the balance back after `db_set_saldo` yields the written
value, provided the user row exists. -/
lemma db_get_saldo_despues_set (st : DBState) (usuarioId : Nat) (v : ℚ)
    (h : ∃ u ∈ st.usuarios, u.id = usuarioId) :
    db_get_saldo (db_set_saldo st usuarioId v) usuarioId = v := by
  unfold db_get_saldo db_set_saldo
  exact find_saldo_aux st.usuarios usuarioId v h

/-- The `movimientos` classification of the source and the amended
claim's row classification agree on every row. -/
lemma clasificaFila_eq_movimientoDeFila (r : Compra) :
    clasificaFila r = movimientoDeFila r := by
  rcases r with ⟨i, u, t, c, pc, fc, pv, fv, s1, s2⟩
  cases pc <;> cases fc <;> cases pv <;> cases fv <;> rfl

/-- The explicit recursion of the amended claim computes the fold of the
source's replay loop from any starting accumulator. -/
lemma replayAmended_eq_foldl :
    ∀ (ms : List Movimiento) (sh : Int) (avg : ℚ),
      replayAmended sh avg ms = (ms.foldl pasoCoste (sh, avg)).2 := by
  intro ms
  induction ms with
  | nil => intro sh avg; rfl
  | cons m rest ih =>
    intro sh avg
    cases m with
    | mk tipo fecha qty px =>
      cases tipo with
      | buy =>
        simp only [replayAmended, List.foldl_cons, pasoCoste]
        exact ih _ _
      | sell =>
        simp only [replayAmended, List.foldl_cons, pasoCoste]
        by_cases hsh : sh - qty ≤ 0
        · rw [if_pos hsh, if_pos hsh]
          exact ih 0 0
        · rw [if_neg hsh, if_neg hsh]
          exact ih _ _

/-- Matching a remaining quantity of zero consumes nothing. -/
lemma planCierre_cero (lots : List Compra) :
    planCierre lots 0 = ([], none, 0) := by
  cases lots with
  | nil => rfl
  | cons a l => rw [planCierre, if_pos le_rfl]

/-! ### Claim theorems -/

/-- Claim C4: `db_cerrar_compras` selects the open lots of the
(user, ticker) pair ordered by purchase time — most recent first under
the default LIFO, oldest first under FIFO — and walks them, consuming
each lot fully (stamping sell price and sell time) when its quantity is
at most the remaining amount to sell, and otherwise splitting it and
stopping: the routine equals computing that matching plan and applying
it in one go.  Moreover, selling exactly the first walked lot's quantity
closes it in place with no residual split (no new row, counter
unchanged), and selling less splits it into two rows whose quantities
sum to the original: the original row keeps the unsold remainder (all
its other columns, in particular its NULL sell date, untouched) while
the appended row records exactly the sold portion, closed. -/
theorem c4_lot_matching (st : DBState) (usuarioId : Nat) (tick : String)
    (q : Int) (pv : ℚ) (fv : Nat) (metodo : String) :
    (db_cerrar_compras st usuarioId tick q pv fv metodo =
      if q ≤ 0 then Except.ok st
      else
        if 0 < (planCierre
            (abiertasOrdenadas st.compras usuarioId tick metodo) q).2.2 then
          Except.error (mensajeFaltan q (planCierre
            (abiertasOrdenadas st.compras usuarioId tick metodo) q).2.2)
        else
          Except.ok (aplicarPlan st usuarioId tick pv fv
            (planCierre (abiertasOrdenadas st.compras usuarioId tick metodo)
              q))) ∧
    (abiertasOrdenadas st.compras usuarioId tick metodo).Perm
      (comprasAbiertas st.compras usuarioId tick) ∧
    List.Sorted (fun a b : Compra =>
        rankFecha b.fechaCompra ≤ rankFecha a.fechaCompra)
      (abiertasOrdenadas st.compras usuarioId tick "LIFO") ∧
    List.Sorted (fun a b : Compra =>
        rankFecha a.fechaCompra ≤ rankFecha b.fechaCompra)
      (abiertasOrdenadas st.compras usuarioId tick "FIFO") ∧
    (∀ first rest,
      abiertasOrdenadas st.compras usuarioId tick metodo = first :: rest →
      0 < first.cantidad →
      db_cerrar_compras st usuarioId tick first.cantidad pv fv metodo =
        Except.ok { st with compras := st.compras.map fun c =>
          if c.id = first.id then cerrarFila pv fv c else c }) ∧
    (∀ first rest,
      abiertasOrdenadas st.compras usuarioId tick metodo = first :: rest →
      0 < q → q < first.cantidad →
      db_cerrar_compras st usuarioId tick q pv fv metodo =
        Except.ok { st with
          compras := (st.compras.map fun c =>
              if c.id = first.id then
                { c with cantidad := first.cantidad - q }
              else c)
            ++ [filaDividida st.nextId usuarioId tick q first pv fv],
          nextId := st.nextId + 1 } ∧
      q + (first.cantidad - q) = first.cantidad) := by
  have hmain : ∀ qq : Int,
      db_cerrar_compras st usuarioId tick qq pv fv metodo =
        if qq ≤ 0 then Except.ok st
        else
          if 0 < (planCierre
              (abiertasOrdenadas st.compras usuarioId tick metodo)
              qq).2.2 then
            Except.error (mensajeFaltan qq (planCierre
              (abiertasOrdenadas st.compras usuarioId tick metodo) qq).2.2)
          else
            Except.ok (aplicarPlan st usuarioId tick pv fv
              (planCierre (abiertasOrdenadas st.compras usuarioId tick
                metodo) qq)) := by
    intro qq
    by_cases hq0 : qq ≤ 0
    · rw [if_pos hq0]
      unfold db_cerrar_compras
      rw [if_pos hq0]
    · rw [if_neg hq0]
      unfold db_cerrar_compras
      rw [if_neg hq0]
      dsimp only
      rw [cerrarLoop_eq_planCierre]
      rfl
  refine ⟨hmain q, abiertasOrdenadas_perm st.compras usuarioId tick metodo,
    abiertasOrdenadas_lifo_sorted st.compras usuarioId tick,
    abiertasOrdenadas_fifo_sorted st.compras usuarioId tick, ?_, ?_⟩
  · intro first rest heq h1
    rw [hmain first.cantidad, if_neg (by omega), heq]
    have hplan : planCierre (first :: rest) first.cantidad =
        ([first.id], none, 0) := by
      rw [planCierre, if_neg (by omega), if_pos le_rfl]
      simp [planCierre_cero]
    rw [hplan]
    simp [aplicarPlan, aplicarPlanTabla, cierraEnIds]
  · intro first rest heq h0 hlt
    constructor
    · rw [hmain q, if_neg (by omega), heq]
      have hplan : planCierre (first :: rest) q =
          ([], some (first, q, first.cantidad - q), 0) := by
        rw [planCierre, if_neg (by omega), if_neg (by omega)]
      rw [hplan]
      simp [aplicarPlan, aplicarPlanTabla, cierraEnIds_nil]
    · omega

/-- A table holding one fully liquidated lot: bought 5 at 20 on day 1,
sold at 25 on day 2 (its closure stamped in place, as `db_cerrar_compras`
does for a full close). -/
def tablaLoteLiquidado : List Compra :=
  [{ id := 0, usuario := 1, ticker := "SAN", cantidad := 5,
     precioCompra := some 20, fechaCompra := some 1,
     precioVenta := some 25, fechaVenta := some 2,
     ventaAutoSup := none, ventaAutoInf := none }]

/-- Claim C2 as stated is false on the code: on a table with one closed
lot (bought 5 at 20, sold at 25) the claimed fold replays the buy and
the sell and returns 0, but `db_coste_medio_posicion` classifies the
closed row as a buy only (its buy fields are still set, and the
classification is an if/elif), never replays the sell, and returns
(20*5+10)/5 = 22. -/
theorem c2_contraejemplo :
    db_coste_medio_posicion tablaLoteLiquidado 1 "SAN" = 22 ∧
    costeMedioClaim tablaLoteLiquidado 1 "SAN" = 0 ∧
    db_coste_medio_posicion tablaLoteLiquidado 1 "SAN" ≠
      costeMedioClaim tablaLoteLiquidado 1 "SAN" := by
  refine ⟨?_, ?_, ?_⟩
  · norm_num [db_coste_medio_posicion, movimientosOrdenados, movimientosDe,
      movimientoDeFila, tablaLoteLiquidado, List.insertionSort,
      List.orderedInsert, pasoCoste, COMISION_POR_OPERACION]
  · norm_num [costeMedioClaim, movimientosClaim, tablaLoteLiquidado,
      List.insertionSort, List.orderedInsert, pasoClaim,
      COMISION_POR_OPERACION]
  · norm_num [db_coste_medio_posicion, costeMedioClaim, movimientosOrdenados,
      movimientosDe, movimientoDeFila, movimientosClaim, tablaLoteLiquidado,
      List.insertionSort, List.orderedInsert, pasoCoste, pasoClaim,
      COMISION_POR_OPERACION]

/-- Claim C2 (amended): `db_coste_medio_posicion` replays one movement
per `compras` row of the pair — a buy, at the buy date, whenever the
row's buy price and buy date are present (closed rows included), else a
sell at the sell date when its sell price and sell date are present,
else nothing — in chronological order with ties broken by insertion
order, maintaining `(shares, avgCost)` where each buy sets
`avgCost = (avgCost*shares + price*qty + commission)/(shares+qty)`
(guarded to 0 when the new share count is not positive) and
`shares += qty`, and each sell sets `shares -= qty`, clamping `shares`
to 0 and resetting `avgCost` to 0 whenever `shares ≤ 0`; the final
`avgCost` is returned and nothing is mutated. -/
theorem c2_coste_medio_amended (compras : List Compra) (usuarioId : Nat)
    (tick : String) :
    db_coste_medio_posicion compras usuarioId tick =
      costeMedioAmended compras usuarioId tick := by
  have hf : clasificaFila = movimientoDeFila :=
    funext clasificaFila_eq_movimientoDeFila
  unfold costeMedioAmended
  rw [hf, replayAmended_eq_foldl]
  rfl

/-- The empty initial database for the C3 scenario, with one user. -/
def c3_baseDatos : DBState := ⟨[⟨1, "u", 1000⟩], [], [], [], 0⟩

/-- The `compras` state after buying 5 at 20 (day 1) and selling all 5
at 25 (day 2): the single lot closed in place. -/
def c3_final : DBState :=
  ⟨[⟨1, "u", 1000⟩], [], [],
   [{ id := 0, usuario := 1, ticker := "SAN", cantidad := 5,
      precioCompra := some 20, fechaCompra := some 1,
      precioVenta := some 25, fechaVenta := some 2,
      ventaAutoSup := none, ventaAutoInf := none }], 1⟩

/-- Claim C3 names the intended behaviour but the code breaks it: after
buying 5 at 20 and selling all 5 at 25 (never overselling, net shares
0), `db_coste_medio_posicion` returns 22, not 0 — every app-created row
keeps its buy fields, so its sale is never replayed as a SELL movement
and the average never resets. -/
theorem c3_evaluacion :
    db_cerrar_compras (db_insert_compra c3_baseDatos 1 "SAN" 5 20 1)
        1 "SAN" 5 25 2 "LIFO" = Except.ok c3_final ∧
    sumaAbiertas c3_final.compras 1 "SAN" = 0 ∧
    db_coste_medio_posicion c3_final.compras 1 "SAN" = 22 ∧
    (22 : ℚ) ≠ 0 := by
  refine ⟨rfl, by decide, ?_, by norm_num⟩
  norm_num [db_coste_medio_posicion, movimientosOrdenados, movimientosDe,
    movimientoDeFila, c3_final, List.insertionSort, List.orderedInsert,
    pasoCoste, COMISION_POR_OPERACION]

/-- First open lot of the C4 witness state (bought earlier). -/
def loteViejo : Compra :=
  { id := 0, usuario := 1, ticker := "SAN", cantidad := 5,
    precioCompra := some 20, fechaCompra := some 1,
    precioVenta := none, fechaVenta := none,
    ventaAutoSup := none, ventaAutoInf := none }

/-- Second open lot of the C4 witness state (bought later, so walked
first under LIFO). -/
def loteNuevo : Compra :=
  { id := 1, usuario := 1, ticker := "SAN", cantidad := 4,
    precioCompra := some 30, fechaCompra := some 2,
    precioVenta := none, fechaVenta := none,
    ventaAutoSup := none, ventaAutoInf := none }

/-- A state with two open lots for user 1 on SAN. -/
def estadoDosLotes : DBState := ⟨[⟨1, "u", 1000⟩], [], [("SAN", 9)],
  [loteViejo, loteNuevo], 2⟩

/-- Witness for C4: on the two-lot state, selling exactly the most
recent lot's quantity (4) closes it in place, and selling 3 splits it
into a reduced open row of 1 and a new closed row of 3. -/
theorem c4_witness :
    db_cerrar_compras estadoDosLotes 1 "SAN" loteNuevo.cantidad 25 9
        "LIFO" =
      Except.ok { estadoDosLotes with
        compras := estadoDosLotes.compras.map fun c =>
          if c.id = loteNuevo.id then cerrarFila 25 9 c else c } ∧
    db_cerrar_compras estadoDosLotes 1 "SAN" 3 25 9 "LIFO" =
      Except.ok { estadoDosLotes with
        compras := (estadoDosLotes.compras.map fun c =>
            if c.id = loteNuevo.id then
              { c with cantidad := loteNuevo.cantidad - 3 }
            else c)
          ++ [filaDividida estadoDosLotes.nextId 1 "SAN" 3 loteNuevo 25 9],
        nextId := estadoDosLotes.nextId + 1 } ∧
    3 + (loteNuevo.cantidad - 3) = loteNuevo.cantidad := by
  have h := c4_lot_matching estadoDosLotes 1 "SAN" 3 25 9 "LIFO"
  have heq : abiertasOrdenadas estadoDosLotes.compras 1 "SAN" "LIFO" =
      loteNuevo :: [loteViejo] := by rfl
  have hsplit := h.2.2.2.2.2 loteNuevo [loteViejo] heq (by decide) (by decide)
  exact ⟨h.2.2.2.2.1 loteNuevo [loteViejo] heq (by decide), hsplit.1,
    hsplit.2⟩

/-- Claim C1: when the total open-lot quantity of the (user, ticker)
pair cannot cover the quantity a sell executes (`max 1 n`), the
persisted state after `POST /operar/vender` is exactly the pre-call
state — balance, `posiciones` row and every `compras` row included —
and `db_cerrar_compras` itself re-verifies and reports the quantity
shortfall (raises, so nothing is committed).  Open-lot quantities are
assumed nonnegative, as every row the app writes satisfies. -/
theorem c1_venta_sin_lotes (st : DBState) (usuarioId : Nat) (tick : String)
    (n : Int) (fetch : Option HistDF) (px : ℚ) (fv : Nat)
    (hprecio : obtenerPrecioOperacion tick fetch = some px)
    (hpos : ∀ c ∈ comprasAbiertas st.compras usuarioId tick, 0 ≤ c.cantidad)
    (hsum : sumaAbiertas st.compras usuarioId tick < max 1 n) :
    (operar_vender st usuarioId tick (some n) fetch fv).1 = st ∧
    ∃ m, db_cerrar_compras st usuarioId tick (max 1 n) px fv "LIFO" =
      Except.error m := by
  refine ⟨?_, db_cerrar_compras_error_of_faltan st usuarioId tick
    (max 1 n) px fv "LIFO" hpos hsum⟩
  unfold operar_vender
  rw [hprecio]
  dsimp only
  by_cases hacc : posicionActual st tick < max 1 n
  · rw [if_pos hacc]
  · rw [if_neg hacc]
    by_cases hing : px * ((max 1 n : Int) : ℚ) - COMISION_POR_OPERACION < 0
    · rw [if_pos hing]
    · rw [if_neg hing]
      have hc2 :
          (db_set_posicion
            (db_set_saldo st usuarioId (db_get_saldo st usuarioId +
              (px * ((max 1 n : Int) : ℚ) - COMISION_POR_OPERACION)))
            tick (posicionActual st tick - max 1 n)).compras =
          st.compras := by
        rw [(db_set_posicion_campos _ _ _).1, (db_set_saldo_campos _ _ _).1]
      obtain ⟨m, hm⟩ := db_cerrar_compras_error_of_faltan
        (db_set_posicion
          (db_set_saldo st usuarioId (db_get_saldo st usuarioId +
            (px * ((max 1 n : Int) : ℚ) - COMISION_POR_OPERACION)))
          tick (posicionActual st tick - max 1 n))
        usuarioId tick (max 1 n) px fv "LIFO"
        (by rw [hc2]; exact hpos) (by rw [hc2]; exact hsum)
      rw [hm]

/-- A one-row price frame quoting 25, with all columns present. -/
def dfPrecio25 : HistDF := ⟨[⟨0, 25, 25, 25, 25⟩], true, true, true, true⟩

/-- A state whose `posiciones` row says 5 shares of SAN but whose
`compras` table has no open lot (out of sync). -/
def estadoSinLotes : DBState := ⟨[⟨1, "u", 1000⟩], [], [("SAN", 5)], [], 0⟩

/-- Witness for C1: selling 3 SAN against an empty lot table leaves the
persisted state untouched and the lot closer reports the shortfall. -/
theorem c1_witness :
    (operar_vender estadoSinLotes 1 "SAN" (some 3) (some dfPrecio25) 7).1 =
      estadoSinLotes ∧
    ∃ m, db_cerrar_compras estadoSinLotes 1 "SAN" (max 1 3) 25 7 "LIFO" =
      Except.error m :=
  c1_venta_sin_lotes estadoSinLotes 1 "SAN" 3 (some dfPrecio25) 25 7
    rfl (by decide) (by decide)

/-- Reading a balance only looks at the `user` table. -/
lemma db_get_saldo_solo_usuarios (st st' : DBState) (usuarioId : Nat)
    (h : st.usuarios = st'.usuarios) :
    db_get_saldo st usuarioId = db_get_saldo st' usuarioId := by
  unfold db_get_saldo
  rw [h]

/-- Claim C10: a parsed quantity `n ≤ 0` is silently clamped — the
handlers behave exactly as if the user had requested 1 share — while a
quantity that fails integer parsing is rejected with no state change;
a parsed quantity is never rejected as invalid. -/
theorem c10_cantidad_clampada (st : DBState) (usuarioId : Nat)
    (tick : String) (n : Int) (fetch : Option HistDF) (fecha : Nat)
    (hn : n ≤ 0) :
    operar_comprar st usuarioId tick (some n) fetch fecha =
      operar_comprar st usuarioId tick (some 1) fetch fecha ∧
    operar_vender st usuarioId tick (some n) fetch fecha =
      operar_vender st usuarioId tick (some 1) fetch fecha ∧
    operar_comprar st usuarioId tick none fetch fecha =
      (st, Resultado.cantidadInvalida) ∧
    operar_vender st usuarioId tick none fetch fecha =
      (st, Resultado.cantidadInvalida) ∧
    (operar_comprar st usuarioId tick (some n) fetch fecha).2 ≠
      Resultado.cantidadInvalida ∧
    (operar_vender st usuarioId tick (some n) fetch fecha).2 ≠
      Resultado.cantidadInvalida := by
  have hmax : max 1 n = (1 : Int) := by omega
  have hmax1 : max 1 (1 : Int) = 1 := by omega
  refine ⟨?_, ?_, rfl, rfl, ?_, ?_⟩
  · unfold operar_comprar
    dsimp only
    rw [hmax, hmax1]
  · unfold operar_vender
    dsimp only
    rw [hmax, hmax1]
  · unfold operar_comprar
    dsimp only
    cases hp : obtenerPrecioOperacion tick fetch with
    | none => simp
    | some px =>
      dsimp only
      split <;> simp
  · unfold operar_vender
    dsimp only
    cases hp : obtenerPrecioOperacion tick fetch with
    | none => simp
    | some px =>
      dsimp only
      split
      · simp
      · split
        · simp
        · split <;> simp

/-- Claim C6: with a live price in hand, a buy is rejected as
insufficient funds, leaving the state unchanged, exactly when the cash
balance is below `price*qty + commission` (the check runs before any
write); a sell whose recorded position is below the requested quantity
is rejected as insufficient shares with no state change. -/
theorem c6_comprobaciones (st : DBState) (usuarioId : Nat) (tick : String)
    (n : Int) (fetch : Option HistDF) (px : ℚ) (fecha : Nat)
    (hprecio : obtenerPrecioOperacion tick fetch = some px) :
    (((operar_comprar st usuarioId tick (some n) fetch fecha).2 =
        Resultado.saldoInsuficiente) ↔
      db_get_saldo st usuarioId <
        px * ((max 1 n : Int) : ℚ) + COMISION_POR_OPERACION) ∧
    (db_get_saldo st usuarioId <
        px * ((max 1 n : Int) : ℚ) + COMISION_POR_OPERACION →
      (operar_comprar st usuarioId tick (some n) fetch fecha).1 = st) ∧
    (posicionActual st tick < max 1 n →
      operar_vender st usuarioId tick (some n) fetch fecha =
        (st, Resultado.accionesInsuficientes)) := by
  refine ⟨?_, ?_, ?_⟩
  · unfold operar_comprar
    rw [hprecio]
    dsimp only
    by_cases hc : db_get_saldo st usuarioId <
        px * ((max 1 n : Int) : ℚ) + COMISION_POR_OPERACION
    · rw [if_pos hc]
      simpa using hc
    · rw [if_neg hc]
      simpa using hc
  · intro hc
    unfold operar_comprar
    rw [hprecio]
    dsimp only
    rw [if_pos hc]
  · intro hacc
    unfold operar_vender
    rw [hprecio]
    dsimp only
    rw [if_pos hacc]

/-- Claim C9: a raising or empty live fetch makes
`obtener_precio_tiempo_real` yield `None`, upon which both handlers
fail with no trade and no database change; the handlers' price comes
only from the live fetch (the cached snapshot is not even an input of
this path). -/
theorem c9_sin_precio (st : DBState) (usuarioId : Nat) (tick : String)
    (n : Int) (fecha : Nat) (df : HistDF) (fetch : Option HistDF) :
    obtener_precio_tiempo_real none = none ∧
    (df.rows = [] → obtener_precio_tiempo_real (some df) = none) ∧
    (obtenerPrecioOperacion tick fetch = none →
      operar_comprar st usuarioId tick (some n) fetch fecha =
        (st, Resultado.sinPrecio) ∧
      operar_vender st usuarioId tick (some n) fetch fecha =
        (st, Resultado.sinPrecio)) := by
  refine ⟨rfl, ?_, ?_⟩
  · intro h
    unfold obtener_precio_tiempo_real
    dsimp only
    rw [if_pos h]
  · intro h
    constructor
    · unfold operar_comprar
      rw [h]
    · unfold operar_vender
      rw [h]

/-- Claim C5: an executed buy of `q = max 1 n` shares at live price `p`
debits exactly `p*q + commission` from the user's balance; an executed
sell credits exactly `p*q - commission`; and a sell whose credit would
be negative is rejected with no trade and no state change.  The user
row is assumed to exist, as the handlers run behind login. -/
theorem c5_importes (st : DBState) (usuarioId : Nat) (tick : String)
    (n : Int) (fetch : Option HistDF) (px : ℚ) (fecha : Nat)
    (hprecio : obtenerPrecioOperacion tick fetch = some px)
    (husuario : ∃ u ∈ st.usuarios, u.id = usuarioId) :
    ((operar_comprar st usuarioId tick (some n) fetch fecha).2 =
        Resultado.ok →
      db_get_saldo
          (operar_comprar st usuarioId tick (some n) fetch fecha).1
          usuarioId =
        db_get_saldo st usuarioId -
          (px * ((max 1 n : Int) : ℚ) + COMISION_POR_OPERACION)) ∧
    ((operar_vender st usuarioId tick (some n) fetch fecha).2 =
        Resultado.ok →
      db_get_saldo
          (operar_vender st usuarioId tick (some n) fetch fecha).1
          usuarioId =
        db_get_saldo st usuarioId +
          (px * ((max 1 n : Int) : ℚ) - COMISION_POR_OPERACION)) ∧
    (px * ((max 1 n : Int) : ℚ) - COMISION_POR_OPERACION < 0 →
      (operar_vender st usuarioId tick (some n) fetch fecha).1 = st ∧
      (operar_vender st usuarioId tick (some n) fetch fecha).2 ≠
        Resultado.ok) := by
  refine ⟨?_, ?_, ?_⟩
  · unfold operar_comprar
    rw [hprecio]
    dsimp only
    by_cases hc : db_get_saldo st usuarioId <
        px * ((max 1 n : Int) : ℚ) + COMISION_POR_OPERACION
    · rw [if_pos hc]
      intro habs
      simp at habs
    · rw [if_neg hc]
      intro _
      have husers :
          (db_insert_compra
            (db_set_posicion
              (db_set_saldo st usuarioId (db_get_saldo st usuarioId -
                (px * ((max 1 n : Int) : ℚ) + COMISION_POR_OPERACION)))
              tick (posicionActual st tick + max 1 n))
            usuarioId tick (max 1 n) px fecha).usuarios =
          (db_set_saldo st usuarioId (db_get_saldo st usuarioId -
            (px * ((max 1 n : Int) : ℚ) +
              COMISION_POR_OPERACION))).usuarios := by
        rw [(db_insert_compra_campos _ _ _ _ _ _).1,
          (db_set_posicion_campos _ _ _).2.2]
      rw [db_get_saldo_solo_usuarios _ _ usuarioId husers]
      exact db_get_saldo_despues_set st usuarioId _ husuario
  · unfold operar_vender
    rw [hprecio]
    dsimp only
    by_cases hacc : posicionActual st tick < max 1 n
    · rw [if_pos hacc]
      intro habs
      simp at habs
    · rw [if_neg hacc]
      by_cases hing : px * ((max 1 n : Int) : ℚ) -
          COMISION_POR_OPERACION < 0
      · rw [if_pos hing]
        intro habs
        simp at habs
      · rw [if_neg hing]
        cases hcer : db_cerrar_compras
            (db_set_posicion
              (db_set_saldo st usuarioId (db_get_saldo st usuarioId +
                (px * ((max 1 n : Int) : ℚ) - COMISION_POR_OPERACION)))
              tick (posicionActual st tick - max 1 n))
            usuarioId tick (max 1 n) px fecha "LIFO" with
        | error m =>
          dsimp only
          intro habs
          simp at habs
        | ok st3 =>
          dsimp only
          intro _
          have h1 := (db_cerrar_compras_ok_campos _ st3 usuarioId tick
            (max 1 n) px fecha "LIFO" hcer).1
          have husers :
              (db_set_posicion
                (db_set_saldo st usuarioId (db_get_saldo st usuarioId +
                  (px * ((max 1 n : Int) : ℚ) - COMISION_POR_OPERACION)))
                tick (posicionActual st tick - max 1 n)).usuarios =
              (db_set_saldo st usuarioId (db_get_saldo st usuarioId +
                (px * ((max 1 n : Int) : ℚ) -
                  COMISION_POR_OPERACION))).usuarios :=
            (db_set_posicion_campos _ _ _).2.2
          rw [db_get_saldo_solo_usuarios st3 _ usuarioId
            (h1.trans husers)]
          exact db_get_saldo_despues_set st usuarioId _ husuario
  · intro hneg
    unfold operar_vender
    rw [hprecio]
    dsimp only
    by_cases hacc : posicionActual st tick < max 1 n
    · rw [if_pos hacc]
      exact ⟨rfl, by simp⟩
    · rw [if_neg hacc, if_pos hneg]
      exact ⟨rfl, by simp⟩

/-- An empty price frame (the provider returned no rows). -/
def dfVacio : HistDF := ⟨[], true, true, true, true⟩

/-- Witness for C5 at a concrete state, quantity 2 and live price 25. -/
theorem c5_witness :
    ((operar_comprar estadoSinLotes 1 "SAN" (some 2) (some dfPrecio25)
        7).2 = Resultado.ok →
      db_get_saldo
          (operar_comprar estadoSinLotes 1 "SAN" (some 2) (some dfPrecio25)
            7).1 1 =
        db_get_saldo estadoSinLotes 1 -
          (25 * ((max 1 2 : Int) : ℚ) + COMISION_POR_OPERACION)) ∧
    ((operar_vender estadoSinLotes 1 "SAN" (some 2) (some dfPrecio25)
        7).2 = Resultado.ok →
      db_get_saldo
          (operar_vender estadoSinLotes 1 "SAN" (some 2) (some dfPrecio25)
            7).1 1 =
        db_get_saldo estadoSinLotes 1 +
          (25 * ((max 1 2 : Int) : ℚ) - COMISION_POR_OPERACION)) ∧
    (25 * ((max 1 2 : Int) : ℚ) - COMISION_POR_OPERACION < 0 →
      (operar_vender estadoSinLotes 1 "SAN" (some 2) (some dfPrecio25)
        7).1 = estadoSinLotes ∧
      (operar_vender estadoSinLotes 1 "SAN" (some 2) (some dfPrecio25)
        7).2 ≠ Resultado.ok) :=
  c5_importes estadoSinLotes 1 "SAN" 2 (some dfPrecio25) 25 7 rfl
    (by decide)

/-- Witness for C6 at the same concrete state. -/
theorem c6_witness :
    (((operar_comprar estadoSinLotes 1 "SAN" (some 2) (some dfPrecio25)
        7).2 = Resultado.saldoInsuficiente) ↔
      db_get_saldo estadoSinLotes 1 <
        25 * ((max 1 2 : Int) : ℚ) + COMISION_POR_OPERACION) ∧
    (db_get_saldo estadoSinLotes 1 <
        25 * ((max 1 2 : Int) : ℚ) + COMISION_POR_OPERACION →
      (operar_comprar estadoSinLotes 1 "SAN" (some 2) (some dfPrecio25)
        7).1 = estadoSinLotes) ∧
    (posicionActual estadoSinLotes "SAN" < max 1 2 →
      operar_vender estadoSinLotes 1 "SAN" (some 2) (some dfPrecio25) 7 =
        (estadoSinLotes, Resultado.accionesInsuficientes)) :=
  c6_comprobaciones estadoSinLotes 1 "SAN" 2 (some dfPrecio25) 25 7 rfl

/-- Witness for C9 with an empty frame and a raising fetch. -/
theorem c9_witness :
    obtener_precio_tiempo_real none = none ∧
    (dfVacio.rows = [] → obtener_precio_tiempo_real (some dfVacio) =
      none) ∧
    (obtenerPrecioOperacion "SAN" none = none →
      operar_comprar estadoSinLotes 1 "SAN" (some 2) none 7 =
        (estadoSinLotes, Resultado.sinPrecio) ∧
      operar_vender estadoSinLotes 1 "SAN" (some 2) none 7 =
        (estadoSinLotes, Resultado.sinPrecio)) :=
  c9_sin_precio estadoSinLotes 1 "SAN" 2 7 dfVacio none

/-- Witness for C10 with the parsed quantity 0. -/
theorem c10_witness :
    operar_comprar estadoSinLotes 1 "SAN" (some 0) (some dfPrecio25) 7 =
      operar_comprar estadoSinLotes 1 "SAN" (some 1) (some dfPrecio25)
        7 ∧
    operar_vender estadoSinLotes 1 "SAN" (some 0) (some dfPrecio25) 7 =
      operar_vender estadoSinLotes 1 "SAN" (some 1) (some dfPrecio25)
        7 ∧
    operar_comprar estadoSinLotes 1 "SAN" none (some dfPrecio25) 7 =
      (estadoSinLotes, Resultado.cantidadInvalida) ∧
    operar_vender estadoSinLotes 1 "SAN" none (some dfPrecio25) 7 =
      (estadoSinLotes, Resultado.cantidadInvalida) ∧
    (operar_comprar estadoSinLotes 1 "SAN" (some 0) (some dfPrecio25)
      7).2 ≠ Resultado.cantidadInvalida ∧
    (operar_vender estadoSinLotes 1 "SAN" (some 0) (some dfPrecio25)
      7).2 ≠ Resultado.cantidadInvalida :=
  c10_cantidad_clampada estadoSinLotes 1 "SAN" 0 (some dfPrecio25) 7
    (by decide)

/-! ### Market-cache claims -/

/-- A database tracking one ticker (`san`, which `leer_tickers` keeps). -/
def ejBaseDatos : DBState :=
  ⟨[⟨1, "u", 1000⟩], [("Banco Santander", "san")], [], [], 0⟩

/-- A bar of the older snapshot. -/
def ejBarra1 : Bar := ⟨1, 10, 11, 9, 10⟩

/-- A bar of the newer snapshot. -/
def ejBarra2 : Bar := ⟨2, 20, 21, 19, 20⟩

/-- The older on-disk snapshot. -/
def ejSnapshot1 : Snapshot := [("san", [("D", [ejBarra1])])]

/-- The snapshot a successful refresh writes with `proveedorMax`. -/
def ejSnapshot2 : Snapshot := [("san", [("MAX", [ejBarra2])])]

/-- A provider whose every fetch returns an empty frame (total refresh
failure). -/
def proveedorVacio : String → String → String → Option (List Bar) :=
  fun _ _ _ => some []

/-- A provider that only answers the `max` period, with the newer bar. -/
def proveedorMax : String → String → String → Option (List Bar) :=
  fun _ per _ => if per = "max" then some [ejBarra2] else some []

/-- The C7 starting state: nonempty snapshot on disk, refresh stamp
long expired, in-memory cache unpopulated. -/
def c7_antes : MarketState := ⟨some ejSnapshot1, some 1000, none⟩

/-- Claim C7 is broken by the code: with a stale nonempty on-disk
snapshot and a provider whose every fetch returns empty,
`descargar_datos_tickers` still returns a dict mapping each ticker to an
empty period dict, which is truthy, so `cargar_datos_mercado` treats the
total failure as a successful refresh: it overwrites the snapshot file
with the empty document, stamps a fresh last-refresh time and serves the
useless per-ticker dict — it does not fall back to the previous
snapshot, contradicting its own docstring
(`Si refresco falla -> vuelve a cache`). -/
theorem c7_evaluacion :
    cargar_datos_mercado ejBaseDatos c7_antes 2000 proveedorVacio =
      (⟨some [], some 2000, some ejSnapshot1⟩, [("san", [])], true) ∧
    ha_expirado_market_cache c7_antes 2000 = true ∧
    some ([] : Snapshot) ≠ c7_antes.disco ∧
    [("san", ([] : List (String × List Bar)))] ≠ ejSnapshot1 := by
  refine ⟨?_, ?_, by simp [c7_antes, ejSnapshot1], by simp [ejSnapshot1]⟩
  · simp [cargar_datos_mercado, leer_tickers, ejBaseDatos, c7_antes,
      ha_expirado_market_cache, MARKET_REFRESH_TTL_SECONDS,
      cargar_datos_desde_disco, descargar_datos_tickers, extraerTickers,
      extraerTickers.go, INTERVALO_PERIODO, proveedorVacio,
      guardar_datos_en_disco, ejSnapshot1, recortar]
    norm_num
  · norm_num [c7_antes, ha_expirado_market_cache,
      MARKET_REFRESH_TTL_SECONDS]

/-- Claim C8 as stated is false on the code: the fresh path serves the
process-wide in-memory copy, which a successful refresh never updates.
Starting from a fresh process (call 1 populates the memory cache from
disk), an expired window (call 2 refreshes successfully, writing the new
snapshot to disk only), a third call within the TTL — snapshot file
present, no refresh call — serves the old in-memory data, different from
the persisted on-disk snapshot. -/
theorem c8_contraejemplo :
    cargar_datos_mercado ejBaseDatos ⟨some ejSnapshot1, some 100, none⟩
        200 proveedorMax =
      (⟨some ejSnapshot1, some 100, some ejSnapshot1⟩, ejSnapshot1,
        false) ∧
    cargar_datos_mercado ejBaseDatos
        ⟨some ejSnapshot1, some 100, some ejSnapshot1⟩ 2000 proveedorMax =
      (⟨some ejSnapshot2, some 2000, some ejSnapshot1⟩, ejSnapshot2,
        true) ∧
    cargar_datos_mercado ejBaseDatos
        ⟨some ejSnapshot2, some 2000, some ejSnapshot1⟩ 2500 proveedorMax =
      (⟨some ejSnapshot2, some 2000, some ejSnapshot1⟩, ejSnapshot1,
        false) ∧
    ha_expirado_market_cache
      (⟨some ejSnapshot2, some 2000, some ejSnapshot1⟩ : MarketState)
      2500 = false ∧
    ejSnapshot1 ≠ ejSnapshot2 := by
  refine ⟨?_, ?_, ?_, ?_, by simp [ejSnapshot1, ejSnapshot2]⟩
  · simp [cargar_datos_mercado, leer_tickers, ejBaseDatos,
      ha_expirado_market_cache, MARKET_REFRESH_TTL_SECONDS,
      cargar_datos_desde_disco, ejSnapshot1]
    norm_num
  · simp [cargar_datos_mercado, leer_tickers, ejBaseDatos,
      ha_expirado_market_cache, MARKET_REFRESH_TTL_SECONDS,
      cargar_datos_desde_disco, descargar_datos_tickers, extraerTickers,
      extraerTickers.go, INTERVALO_PERIODO, proveedorMax,
      guardar_datos_en_disco, ejSnapshot1, ejSnapshot2, ejBarra2,
      recortar, List.insertionSort, List.orderedInsert]
    norm_num
  · simp [cargar_datos_mercado, leer_tickers, ejBaseDatos,
      ha_expirado_market_cache, MARKET_REFRESH_TTL_SECONDS,
      cargar_datos_desde_disco, ejSnapshot1, ejSnapshot2]
    norm_num
  · norm_num [ha_expirado_market_cache, MARKET_REFRESH_TTL_SECONDS]

/-- Serialization to disk keeps every bar of every nonempty frame. -/
lemma guardar_preserva_barras (res : Snapshot) (t : String)
    (dpp : List (String × List Bar)) (per : String) (df : List Bar)
    (h1 : (t, dpp) ∈ res) (h2 : (per, df) ∈ dpp) (h3 : df ≠ []) :
    ∃ dpp2, (t, dpp2) ∈ guardar_datos_en_disco res ∧ (per, df) ∈ dpp2 := by
  refine ⟨dpp.filter (fun pd => ¬ pd.2 = []), ?_, ?_⟩
  · unfold guardar_datos_en_disco
    apply List.mem_filterMap.mpr
    refine ⟨(t, dpp), h1, ?_⟩
    rw [if_neg (by
      dsimp only
      intro hvacia
      rw [hvacia] at h2
      cases h2)]
  · exact List.mem_filter.mpr ⟨h2, by simpa using h3⟩

/-- Claim C8 (amended): whenever the snapshot file exists with nonempty
content, `now - last_refresh` is within the TTL, and the process-wide
in-memory copy is still unpopulated or equal to the on-disk snapshot,
`cargar_datos_mercado` makes no refresh call and serves exactly the
persisted on-disk snapshot (the round trip through serialization
preserves every bar of every nonempty frame, as the second conjunct
states for the snapshots the refresh path writes).  In general the
fresh path serves the lazily populated in-memory copy, which a
successful refresh does not update, so it can lag the disk file within
one process (see the counterexample). -/
theorem c8_amended (db : DBState) (ms : MarketState) (now : ℚ)
    (provider : String → String → String → Option (List Bar))
    (d : Snapshot) (hdisco : ms.disco = some d) (hno : d ≠ [])
    (hfresca : ha_expirado_market_cache ms now = false)
    (hmem : ms.memCache = none ∨ ms.memCache = some d) :
    cargar_datos_mercado db ms now provider =
      ({ ms with memCache := some d }, d, false) ∧
    (∀ (res : Snapshot) (t : String) (dpp : List (String × List Bar))
        (per : String) (df : List Bar),
      (t, dpp) ∈ res → (per, df) ∈ dpp → df ≠ [] →
      ∃ dpp2, (t, dpp2) ∈ guardar_datos_en_disco res ∧ (per, df) ∈ dpp2) := by
  constructor
  · have hcarga : cargar_datos_desde_disco ms =
        ({ ms with memCache := some d }, d) := by
      rcases hmem with hmem | hmem
      · simp [cargar_datos_desde_disco, hmem, hdisco]
      · rcases ms with ⟨da, ts, mc⟩
        simp only at hmem
        subst hmem
        simp [cargar_datos_desde_disco]
    unfold cargar_datos_mercado
    dsimp only
    rw [if_pos ⟨by rw [hdisco]; rfl, hfresca⟩, hcarga]
    dsimp only
    rw [if_neg hno]
  · exact fun res t dpp per df h1 h2 h3 =>
      guardar_preserva_barras res t dpp per df h1 h2 h3

/-- Witness for the amended C8 at the concrete fresh state of call 1 of
the counterexample chain. -/
theorem c8_witness :
    cargar_datos_mercado ejBaseDatos ⟨some ejSnapshot1, some 100, none⟩
        200 proveedorMax =
      ({ (⟨some ejSnapshot1, some 100, none⟩ : MarketState) with
          memCache := some ejSnapshot1 }, ejSnapshot1, false) ∧
    (∀ (res : Snapshot) (t : String) (dpp : List (String × List Bar))
        (per : String) (df : List Bar),
      (t, dpp) ∈ res → (per, df) ∈ dpp → df ≠ [] →
      ∃ dpp2, (t, dpp2) ∈ guardar_datos_en_disco res ∧ (per, df) ∈ dpp2) :=
  c8_amended ejBaseDatos ⟨some ejSnapshot1, some 100, none⟩ 200
    proveedorMax ejSnapshot1 rfl (by simp [ejSnapshot1])
    (by norm_num [ha_expirado_market_cache, MARKET_REFRESH_TTL_SECONDS])
    (Or.inl rfl)

end BolsaWeb
